import Mathlib

/-!
Shallow embedding of the session/consent/capture/upload core of
AEGIS-Medical/Project-ALICE (src/app.js), together with theorems settling
the specification claims about it.

The client code embedded here lives in three React components:
`App` / `checkAuthStatus` (src/app.js:61-100), `VideoCallScreen`
(`startRecording`, `stopRecording`, `uploadVideoForAnalysis`,
`toggleRecording`, src/app.js:211-411) and `ConsentScreen`
(`submitConsent`, `checkSessionStatus`, `startSession`,
src/app.js:425-542).  The backend session/consent state machine is part of
the project (README documents a FastAPI server) but its source is not in
src/; where a claim depends on it, the definition is modelled from the
spec and marked as such in its doc comment.
-/

namespace ProjectAlice

/-- Session states named by the spec (section 3).  The client code never
inspects a state field, but the backend session it talks to is in one of
these states; we carry it to state consent-gating claims. -/
inductive SessionState where
  | Created
  | AwaitingConsent
  | BothConsented
  | Started
  | Cancelled
  | Expired
deriving DecidableEq, Repr

/-- Outcome of one HTTP request as the client code observes it: a response
whose `.ok` field is true (status 200-299), a response whose `.ok` field is
false (carrying the status code), or a thrown error (network failure),
which lands in the JS `catch` block. -/
inductive HttpOutcome where
  | ok (status : Nat)
  | httpError (status : Nat)
  | thrown
deriving DecidableEq, Repr

/-! ## CaptureController: VideoCallScreen (src/app.js:211-411)

The component state relevant to recording is the `isRecording` boolean,
the `sessionId` (null until `createSession` succeeds) plus the camera ref
and permission flag.  There is no field holding the backend session state:
`startRecording` and `toggleRecording` do not receive or consult it. -/

/-- The `VideoCallScreen` component state used by the recording handlers:
`isRecording` (useState, line 212), `sessionId` (useState, line 213, set
by `createSession`), `hasPermissions` (line 214) and whether
`cameraRef.current` is non-null. -/
structure VideoCallState where
  isRecording : Bool
  sessionId : Option String
  hasPermissions : Bool
  cameraPresent : Bool
deriving DecidableEq, Repr

/-- The options object built in `startRecording` (src/app.js:281-286) and
passed to `cameraRef.current.recordAsync`.  `maxDuration` is in seconds
(react-native-camera API); the literal in the source is `1800` with the
comment "30 minutes max". -/
structure RecordOptions where
  quality : String
  videoBitrate : Nat
  audioBitrate : Nat
  maxDuration : Nat
deriving DecidableEq, Repr

/-- The concrete options value from src/app.js:281-286. -/
def recordOptions : RecordOptions :=
  { quality := "720p", videoBitrate := 1000000, audioBitrate := 128000,
    maxDuration := 1800 }

/-- What `startRecording` (src/app.js:277-298) does: the guard at line 278
(`if (!cameraRef.current || !sessionId) return;`) returns silently, with no
error, alert or thrown exception; otherwise `recordAsync(options)` is
awaited, i.e. device capture begins with the given options.  The function
reads no session/consent state and raises no ConsentNotComplete error:
its only inputs are the component state fields below. -/
inductive StartRecordingResult where
  | silentReturn
  | deviceRecording (opts : RecordOptions)
deriving DecidableEq, Repr

/-- Shallow embedding of `startRecording` (src/app.js:277-298). -/
def startRecording (s : VideoCallState) : StartRecordingResult :=
  if s.cameraPresent ∧ s.sessionId.isSome then
    StartRecordingResult.deviceRecording recordOptions
  else
    StartRecordingResult.silentReturn

/-- Shallow embedding of `stopRecording` (src/app.js:300-305): if the
camera ref is present, stop the device and set `isRecording` to false;
otherwise do nothing. -/
def stopRecording (s : VideoCallState) : VideoCallState :=
  if s.cameraPresent then { s with isRecording := false } else s

/-- Shallow embedding of `toggleRecording` (src/app.js:339-346): when not
recording, it sets `isRecording := true` (unconditionally, before any
guard) and invokes `startRecording`; when recording, it invokes
`stopRecording`.  Returns the new component state and, when a start was
attempted, what `startRecording` did. -/
def toggleRecording (s : VideoCallState) :
    VideoCallState × Option StartRecordingResult :=
  if s.isRecording then
    (stopRecording s, none)
  else
    ({ s with isRecording := true }, some (startRecording s))

/-- The passage of recording time as the VideoCallScreen component sees
it.  The component registers no timer, interval, or elapsed-duration
handler tied to recording: no line of `VideoCallScreen` reads a clock or
compares a duration, so elapsed milliseconds change no component state and
trigger no stop.  (The only duration logic in the source is the
`maxDuration: 1800` entry of the options object handed to the camera
device at src/app.js:285.)  Hence the controller-side time step is the
identity on the component state. -/
def controllerTimeStep (s : VideoCallState) (_elapsedMs : Nat) :
    VideoCallState :=
  s

/-- There is no Finalizing (or Armed, Ready, Aborted) phase in the code:
the whole client-side capture state space is `VideoCallState`, whose only
recording field is the boolean `isRecording`.  This predicate says the
component currently shows an active recording. -/
def recordingActive (s : VideoCallState) : Prop :=
  s.isRecording = true

/-! ## UploadPipeline: uploadVideoForAnalysis (src/app.js:307-337)

The body is one `try` block: read token, build a FormData naming the local
file uri, one single `fetch`, then `if (response.ok)` alert success `else`
alert failure; the `catch` alerts failure.  There is no loop, no retry, no
backoff, no task object, and no statement deleting the local file. -/

/-- The user-visible outcome of `uploadVideoForAnalysis`: the success
alert (line 329), the error alert for a non-ok response (line 331), or the
catch-block error alert (line 335). -/
inductive UploadResult where
  | successAlert
  | failedAlert
  | caughtErrorAlert
deriving DecidableEq, Repr

/-- What one run of the upload code produces: how many `fetch` attempts it
made against the environment, which alert it showed, and whether it
deleted the local artifact file. -/
structure UploadRun where
  attempts : Nat
  result : UploadResult
  artifactDeleted : Bool
deriving DecidableEq, Repr

/-- Shallow embedding of `uploadVideoForAnalysis` (src/app.js:307-337)
run against an environment that would answer successive attempts with the
outcomes in `outcomes` (first element answers the first attempt, and so
on).  The code performs exactly one `fetch`, so only the head is ever
consumed; an empty environment means the single fetch throws.  No path of
the function deletes the local file at `videoUri`. -/
def uploadVideoForAnalysis (outcomes : List HttpOutcome) : UploadRun :=
  match outcomes with
  | [] =>
      { attempts := 1, result := UploadResult.caughtErrorAlert,
        artifactDeleted := false }
  | o :: _ =>
      match o with
      | HttpOutcome.ok _ =>
          { attempts := 1, result := UploadResult.successAlert,
            artifactDeleted := false }
      | HttpOutcome.httpError _ =>
          { attempts := 1, result := UploadResult.failedAlert,
            artifactDeleted := false }
      | HttpOutcome.thrown =>
          { attempts := 1, result := UploadResult.caughtErrorAlert,
            artifactDeleted := false }

/-! ## SessionPoller: checkSessionStatus (src/app.js:464-485)

One invocation: `fetch` the status endpoint, parse JSON; if
`response.ok && data.both_consented` then `await startSession()` (and no
further poll is scheduled); else `setTimeout(checkSessionStatus, 3000)`;
a thrown error reaches the `catch`, which only calls `console.error` and
schedules nothing. -/

/-- The JSON body of a status poll response together with the response's
`.ok` flag.  The code reads only `both_consented` from the body; we also
carry the session `state` the backend would report, to express claims
about terminal states - the point being that the code never looks at it. -/
structure StatusResponse where
  ok : Bool
  state : SessionState
  both_consented : Bool
deriving DecidableEq, Repr

/-- The outcome of one poll request: a response (with parsed body), or a
thrown error landing in the catch block. -/
inductive PollOutcome where
  | response (r : StatusResponse)
  | thrown
deriving DecidableEq, Repr

/-- What one invocation of `checkSessionStatus` does after its request
completes: call `startSession` and stop polling (line 477), schedule the
next poll in 3000 ms (line 480), or stop silently with only a console log
(catch block, line 483). -/
inductive PollStep where
  | startSessionCall
  | scheduleNext
  | silentStop
deriving DecidableEq, Repr

/-- Shallow embedding of one `checkSessionStatus` invocation
(src/app.js:464-485) as a function of its request's outcome. -/
def checkSessionStatusStep (o : PollOutcome) : PollStep :=
  match o with
  | PollOutcome.thrown => PollStep.silentStop
  | PollOutcome.response r =>
      if r.ok ∧ r.both_consented then PollStep.startSessionCall
      else PollStep.scheduleNext

/-- The polling interval passed to `setTimeout` at src/app.js:480. -/
def pollIntervalMs : Nat := 3000

/-- Phases of the polling loop formed by `checkSessionStatus` calling
itself through `setTimeout`.  At any moment the chain is either awaiting
one in-flight status request, waiting on one pending 3000 ms timer with no
request in flight, or stopped (either by calling `startSession` or by the
silent catch). -/
inductive PollerPhase where
  | inFlight
  | timerPending
  | stopped
deriving DecidableEq, Repr

/-- Number of outstanding (issued, not yet returned) status requests in a
given phase of the loop. -/
def outstanding : PollerPhase → Nat
  | PollerPhase.inFlight => 1
  | PollerPhase.timerPending => 0
  | PollerPhase.stopped => 0

/-- Transitions of the polling loop, read off src/app.js:464-485: a
pending timer firing re-enters `checkSessionStatus`, which immediately
issues the fetch; an in-flight request completing is processed by
`checkSessionStatusStep`, which either schedules exactly one timer
(`scheduleNext`) or stops (`startSessionCall` or `silentStop`).  The
`setTimeout` call sits inside the `else` branch after `await fetch`
returns, so a new request can only be issued from `timerPending`, never
while another is in flight. -/
inductive PollerTrans : PollerPhase → PollerPhase → Prop where
  | fire : PollerTrans PollerPhase.timerPending PollerPhase.inFlight
  | complete (o : PollOutcome)
      (h : checkSessionStatusStep o = PollStep.scheduleNext) :
      PollerTrans PollerPhase.inFlight PollerPhase.timerPending
  | finish (o : PollOutcome)
      (h : checkSessionStatusStep o ≠ PollStep.scheduleNext) :
      PollerTrans PollerPhase.inFlight PollerPhase.stopped

/-- Reachable phases of one polling loop.  The loop starts with the direct
invocation of `checkSessionStatus` from the consent alert callback
(src/app.js:446), which issues its request at once: the initial phase is
`inFlight`. -/
inductive PollerReachable : PollerPhase → Prop where
  | init : PollerReachable PollerPhase.inFlight
  | step {p q : PollerPhase} :
      PollerReachable p → PollerTrans p q → PollerReachable q

/-! ## ConsentScreen: submitConsent client and startSession
(src/app.js:429-462, 487-507) -/

/-- What the client `submitConsent` (src/app.js:429-462) does after its
POST completes, as a function of the submitted decision and the HTTP
outcome: on ok with consent=true, show the waiting alert whose OK button
invokes `checkSessionStatus`; on ok with consent=false, show the
cancelled alert and go back; on a non-ok response, show the failure
alert; on a thrown error, show the network-error alert. -/
inductive ConsentSubmitResult where
  | waitingAlertThenPoll
  | cancelledAlertGoBack
  | failedAlert
  | networkErrorAlert
deriving DecidableEq, Repr

/-- Shallow embedding of the client `submitConsent` (src/app.js:429-462). -/
def submitConsentClient (consent : Bool) (o : HttpOutcome) :
    ConsentSubmitResult :=
  match o with
  | HttpOutcome.ok _ =>
      if consent then ConsentSubmitResult.waitingAlertThenPoll
      else ConsentSubmitResult.cancelledAlertGoBack
  | HttpOutcome.httpError _ => ConsentSubmitResult.failedAlert
  | HttpOutcome.thrown => ConsentSubmitResult.networkErrorAlert

/-- What `startSession` (src/app.js:487-507) does as a function of its
POST's outcome: on ok, show the session-started alert; on a non-ok
response, nothing at all (the `if (response.ok)` has no else branch); on a
thrown error, only `console.error`. -/
inductive StartSessionResult where
  | startedAlert
  | silentIgnore
  | loggedError
deriving DecidableEq, Repr

/-- Shallow embedding of `startSession` (src/app.js:487-507). -/
def startSession (o : HttpOutcome) : StartSessionResult :=
  match o with
  | HttpOutcome.ok _ => StartSessionResult.startedAlert
  | HttpOutcome.httpError _ => StartSessionResult.silentIgnore
  | HttpOutcome.thrown => StartSessionResult.loggedError

/-! ## Backend consent state machine (modelled from the spec)

The server answering `POST /sessions/:id/consent` is part of the project
(the README documents the FastAPI backend) but its source is not under
src/; only the client caller `submitConsent` is.  The definitions below
are therefore modelled from the spec, not from source. -/

/-- One party's consent decision (spec section 3, ConsentRecord). -/
inductive Decision where
  | Pending
  | Granted
  | Declined
deriving DecidableEq, Repr

/-- The two parties of a session (spec section 3). -/
inductive Party where
  | initiator
  | participant
deriving DecidableEq, Repr

/-- Error answered to a consent submission in a state where it is invalid
(spec section 7 taxonomy). -/
inductive ConsentError where
  | StaleSession
deriving DecidableEq, Repr

/-- Modelled from the spec: the backend's per-session record - its state
and the two parties' recorded decisions (spec section 3: Session and
ConsentRecord, at most one record per party). -/
structure ServerSession where
  state : SessionState
  initiatorDecision : Decision
  participantDecision : Decision
deriving DecidableEq, Repr

/-- Modelled from the spec: the pure `evaluate(session, records)` function
of ConsentCoordinator (spec section 4.1): any Declined record gives
Cancelled; both Granted gives BothConsented; otherwise AwaitingConsent. -/
def evaluate (i p : Decision) : SessionState :=
  if i = Decision.Declined ∨ p = Decision.Declined then
    SessionState.Cancelled
  else if i = Decision.Granted ∧ p = Decision.Granted then
    SessionState.BothConsented
  else
    SessionState.AwaitingConsent

/-- Replace one party's recorded decision. -/
def setDecision (s : ServerSession) (p : Party) (d : Decision) :
    ServerSession :=
  match p with
  | Party.initiator => { s with initiatorDecision := d }
  | Party.participant => { s with participantDecision := d }

/-- Modelled from the spec: the backend handling of a consent submission
(spec section 4.1): a submission succeeds only while the session is still
open for consent (`Created` or `AwaitingConsent`, per the scenario where
the initiator consents out of `Created`); it overwrites that party's
record and re-evaluates the state; once `BothConsented` or `Cancelled`
(or any other later state) further submissions fail with StaleSession. -/
def submitConsentServer (s : ServerSession) (p : Party) (d : Decision) :
    Except ConsentError ServerSession :=
  if s.state = SessionState.Created ∨ s.state = SessionState.AwaitingConsent
  then
    let s2 := setDecision s p d
    Except.ok { s2 with state := evaluate s2.initiatorDecision s2.participantDecision }
  else
    Except.error ConsentError.StaleSession

/-! ## App startup authentication gate (src/app.js:61-100) -/

/-- The result of `AsyncStorage.getItem` as JS sees it: a string, null, or
a rejected promise (thrown into the catch block). -/
inductive StorageRead where
  | value (s : String)
  | nullValue
  | thrown
deriving DecidableEq, Repr

/-- Shallow embedding of `checkAuthStatus` (src/app.js:69-80): read
`access_token` from local storage; `if (token)` - JS truthiness, so a
non-null, non-empty string - set `isAuthenticated` to true.  No network
request is made (the comment at line 73 notwithstanding); the catch block
only logs, leaving `isAuthenticated` at its initial `false`. -/
def checkAuthStatus (r : StorageRead) : Bool :=
  match r with
  | StorageRead.value s => !(s == "")
  | StorageRead.nullValue => false
  | StorageRead.thrown => false

/-- The root route the `App` component renders (src/app.js:86-99) once
loading is done: the main tabs when `isAuthenticated`, the auth stack
otherwise. -/
inductive RootRoute where
  | mainTabs
  | authStack
deriving DecidableEq, Repr

/-- Shallow embedding of the route choice in `App` (src/app.js:89-96). -/
def appRoute (isAuthenticated : Bool) : RootRoute :=
  if isAuthenticated then RootRoute.mainTabs else RootRoute.authStack

/-! ## Theorems on the claims -/

/-- Claim C1: the spec requires that capture never enter Recording while
the session state is not Started, and that starting capture while
AwaitingConsent fail with ConsentNotComplete.  The code violates this:
with the backend session in `AwaitingConsent` (which is not `Started`), a
client holding a sessionId and a camera that taps the record button sets
`isRecording := true` and begins device recording; `startRecording` reads
no session state and no ConsentNotComplete error exists anywhere in the
code.  This theorem evaluates the embedded code at that failing input. -/
theorem c1_recording_starts_while_awaiting_consent :
    SessionState.AwaitingConsent ≠ SessionState.Started ∧
    (toggleRecording ⟨false, some "s1", true, true⟩).2 =
      some (StartRecordingResult.deviceRecording recordOptions) ∧
    (toggleRecording ⟨false, some "s1", true, true⟩).1.isRecording = true :=
  ⟨by decide, rfl, rfl⟩

/-- Claim C2, counterexample: the claim says that if capture reaches
1800001 ms the controller itself auto-stops at 1800000 ms and transitions
to Finalizing without an external stop signal.  In the code the controller
(VideoCallScreen) has no duration logic at all: at 1800001 ms elapsed with
no external stop, its state is unchanged and still recording (and no
Finalizing phase exists in its state space). -/
theorem c2_counterexample_no_controller_autostop :
    controllerTimeStep ⟨true, some "s1", true, true⟩ 1800001 =
      ⟨true, some "s1", true, true⟩ ∧
    (controllerTimeStep ⟨true, some "s1", true, true⟩ 1800001).isRecording
      = true :=
  ⟨rfl, rfl⟩

/-- Claim C2, amended: the 1800-second maximum duration is enforced only
by the device layer - every device recording the code starts is handed the
options object with `maxDuration = 1800` (seconds) for the camera to
enforce - while the controller itself performs no duration-based stop:
elapsed time never changes its state. -/
theorem c2_cap_is_device_level_only :
    (∀ (s : VideoCallState) (opts : RecordOptions),
      startRecording s = StartRecordingResult.deviceRecording opts →
      opts.maxDuration = 1800) ∧
    ∀ (s : VideoCallState) (t : Nat), controllerTimeStep s t = s := by
  constructor
  · intro s opts h
    unfold startRecording at h
    split at h
    · cases h
      rfl
    · cases h
  · intro s t
    rfl

/-- Witness for `c2_cap_is_device_level_only` at concrete inputs. -/
theorem c2_cap_is_device_level_only_witness :
    recordOptions.maxDuration = 1800 ∧
    controllerTimeStep ⟨true, some "s1", true, true⟩ 1800000 =
      ⟨true, some "s1", true, true⟩ :=
  ⟨c2_cap_is_device_level_only.1 ⟨false, some "s1", true, true⟩
      recordOptions rfl,
   c2_cap_is_device_level_only.2 ⟨true, some "s1", true, true⟩ 1800000⟩

/-- Claim C3, counterexample: the claim says transient 5xx errors are
retried up to 3 attempts and after 3 consecutive 503 responses the task
ends as Failed(retryable=true).  Against an environment answering 503 to
every attempt, the code makes exactly one fetch attempt - not 3 - and
produces only a failure alert (no upload task, no retryable flag). -/
theorem c3_counterexample_single_attempt_on_503 :
    (uploadVideoForAnalysis
      [HttpOutcome.httpError 503, HttpOutcome.httpError 503,
       HttpOutcome.httpError 503]).attempts = 1 ∧
    (uploadVideoForAnalysis
      [HttpOutcome.httpError 503, HttpOutcome.httpError 503,
       HttpOutcome.httpError 503]).result = UploadResult.failedAlert :=
  ⟨rfl, rfl⟩

/-- Claim C3, amended: every upload run performs exactly one attempt (no
retry, no backoff), and no path of the upload code deletes the local
artifact handle - on failure the file at the local uri is left in place
and an error alert is surfaced. -/
theorem c3_upload_single_attempt_artifact_kept :
    ∀ outcomes : List HttpOutcome,
      (uploadVideoForAnalysis outcomes).attempts = 1 ∧
      (uploadVideoForAnalysis outcomes).artifactDeleted = false := by
  intro outcomes
  cases outcomes with
  | nil => exact ⟨rfl, rfl⟩
  | cons o rest => cases o <;> exact ⟨rfl, rfl⟩

/-- Claim C4, counterexample: the claim says a single failed poll is not
fatal and is retried on the next tick.  In the code a thrown poll request
lands in the catch block, which only logs: polling stops silently at once,
with no next tick, no bounded-failure count, and no PollExhausted
notification. -/
theorem c4_counterexample_thrown_poll_is_fatal :
    checkSessionStatusStep PollOutcome.thrown = PollStep.silentStop ∧
    PollStep.silentStop ≠ PollStep.scheduleNext :=
  ⟨rfl, by decide⟩

/-- Claim C4, amended: a thrown network error on any poll immediately and
silently stops polling (console log only) - there is no consecutive-
failure budget and no PollExhausted signal - while a non-ok HTTP response
is treated like a not-yet-consented status and polling continues on the
next tick without bound. -/
theorem c4_thrown_stops_http_error_continues :
    checkSessionStatusStep PollOutcome.thrown = PollStep.silentStop ∧
    ∀ r : StatusResponse, r.ok = false →
      checkSessionStatusStep (PollOutcome.response r) =
        PollStep.scheduleNext := by
  constructor
  · rfl
  · intro r h
    simp [checkSessionStatusStep, h]

/-- Witness for `c4_thrown_stops_http_error_continues` at a concrete
non-ok response. -/
theorem c4_thrown_stops_http_error_continues_witness :
    checkSessionStatusStep
      (PollOutcome.response ⟨false, SessionState.AwaitingConsent, false⟩) =
      PollStep.scheduleNext :=
  c4_thrown_stops_http_error_continues.2
    ⟨false, SessionState.AwaitingConsent, false⟩ rfl

/-- Claim C5, counterexample: the claim says a Cancelled (or Expired)
status response terminates polling.  In the code the only stop condition
is `response.ok && data.both_consented`; the state field is never read, so
an ok response reporting the session Cancelled (with both_consented false)
schedules the next poll - polling continues. -/
theorem c5_counterexample_cancelled_keeps_polling :
    checkSessionStatusStep
        (PollOutcome.response ⟨true, SessionState.Cancelled, false⟩) =
      PollStep.scheduleNext ∧
    checkSessionStatusStep
        (PollOutcome.response ⟨true, SessionState.Expired, false⟩) =
      PollStep.scheduleNext :=
  ⟨rfl, rfl⟩

/-- Claim C5, amended: polling stops in exactly two cases - an ok response
with both_consented=true (the client then issues the start call) or a
thrown request (silent stop); every other outcome schedules the next
tick.  The session state field is never consulted, so Cancelled and
Expired do not terminate polling, and no caller-cancellation handle
exists. -/
theorem c5_stop_conditions :
    ∀ o : PollOutcome,
      (checkSessionStatusStep o = PollStep.startSessionCall ↔
        ∃ r : StatusResponse, o = PollOutcome.response r ∧
          r.ok = true ∧ r.both_consented = true) ∧
      (checkSessionStatusStep o = PollStep.silentStop ↔
        o = PollOutcome.thrown) := by
  intro o
  cases o with
  | thrown => simp [checkSessionStatusStep]
  | response r =>
    simp only [checkSessionStatusStep]
    constructor
    · constructor
      · intro h
        refine ⟨r, rfl, ?_⟩
        by_contra hc
        rw [if_neg] at h
        · cases h
        · intro hb
          exact hc ⟨hb.1, hb.2⟩
      · rintro ⟨r2, he, hok, hb⟩
        cases he
        rw [if_pos ⟨hok, hb⟩]
    · constructor
      · intro h
        by_cases hb : r.ok = true ∧ r.both_consented = true
        · rw [if_pos hb] at h
          cases h
        · rw [if_neg hb] at h
          cases h
      · intro h
        cases h

/-- Claim C6: within one polling loop there are never two outstanding
status requests in flight.  The loop's transition system (read off the
recursive-setTimeout structure of `checkSessionStatus`) keeps at most one
outstanding request in every reachable phase, and the only transition that
issues a request starts from the timer-pending phase - a poll that has not
returned cannot be overlapped, because the next tick is scheduled only in
the continuation that runs after the response is processed. -/
theorem c6_no_overlapping_polls :
    (∀ p : PollerPhase, PollerReachable p → outstanding p ≤ 1) ∧
    ∀ p : PollerPhase, PollerTrans p PollerPhase.inFlight →
      p = PollerPhase.timerPending := by
  constructor
  · intro p hp
    cases p <;> simp [outstanding]
  · intro p ht
    cases ht
    rfl

/-- Witness for `c6_no_overlapping_polls`: the initial phase (request in
flight) is reachable and has one outstanding request; the timer-fire
transition enters the in-flight phase from the timer-pending phase. -/
theorem c6_no_overlapping_polls_witness :
    outstanding PollerPhase.inFlight ≤ 1 ∧
    PollerPhase.timerPending = PollerPhase.timerPending :=
  ⟨c6_no_overlapping_polls.1 PollerPhase.inFlight PollerReachable.init,
   c6_no_overlapping_polls.2 PollerPhase.timerPending PollerTrans.fire⟩

/-- Claim C7 (backend consent machine modelled from the spec): whenever a
Declined submission is accepted, the resulting session is Cancelled, and
every subsequent consent submission from either party fails with
StaleSession. -/
theorem c7_declined_cancels_then_stale :
    ∀ (s : ServerSession) (p : Party) (s2 : ServerSession),
      submitConsentServer s p Decision.Declined = Except.ok s2 →
      s2.state = SessionState.Cancelled ∧
      ∀ (q : Party) (d : Decision),
        submitConsentServer s2 q d =
          Except.error ConsentError.StaleSession := by
  intro s p s2 h
  unfold submitConsentServer at h
  split at h
  · injection h with h2
    subst h2
    have hstate :
        (evaluate (setDecision s p Decision.Declined).initiatorDecision
          (setDecision s p Decision.Declined).participantDecision) =
          SessionState.Cancelled := by
      cases p <;> simp [setDecision, evaluate]
    refine ⟨hstate, ?_⟩
    intro q d
    unfold submitConsentServer
    rw [if_neg]
    simp only [hstate]
    intro hc
    cases hc with
    | inl h1 => cases h1
    | inr h1 => cases h1
  · cases h

/-- Witness for `c7_declined_cancels_then_stale`: initiator has Granted,
participant submits Declined out of AwaitingConsent; the session becomes
Cancelled and the initiator's next submission fails with StaleSession. -/
theorem c7_declined_cancels_then_stale_witness :
    (⟨SessionState.Cancelled, Decision.Granted, Decision.Declined⟩ :
        ServerSession).state = SessionState.Cancelled ∧
    submitConsentServer
        ⟨SessionState.Cancelled, Decision.Granted, Decision.Declined⟩
        Party.initiator Decision.Granted =
      Except.error ConsentError.StaleSession :=
  have h := c7_declined_cancels_then_stale
    ⟨SessionState.AwaitingConsent, Decision.Granted, Decision.Pending⟩
    Party.participant
    ⟨SessionState.Cancelled, Decision.Granted, Decision.Declined⟩
    rfl
  ⟨h.1, h.2 Party.initiator Decision.Granted⟩

/-- Claim C8, counterexample: the claim says operations invoked in an
invalid phase are rejected with a descriptive error and never silently
no-op.  Starting capture before a session exists (sessionId null) hits the
guard `if (!cameraRef.current || !sessionId) return;` and returns silently
with no error of any kind; likewise `startSession` receiving a non-ok
response does nothing at all (its `if (response.ok)` has no else). -/
theorem c8_counterexample_silent_noop :
    startRecording ⟨false, none, true, true⟩ =
      StartRecordingResult.silentReturn ∧
    startSession (HttpOutcome.httpError 409) =
      StartSessionResult.silentIgnore :=
  ⟨rfl, rfl⟩

/-- Claim C8, amended: invalid-phase operations are silently ignored
rather than rejected: starting capture with no session always returns
silently without an error, and `startSession` silently ignores every
non-ok response. -/
theorem c8_invalid_ops_silently_ignored :
    (∀ s : VideoCallState, s.sessionId = none →
      startRecording s = StartRecordingResult.silentReturn) ∧
    ∀ n : Nat, startSession (HttpOutcome.httpError n) =
      StartSessionResult.silentIgnore := by
  constructor
  · intro s h
    simp [startRecording, h]
  · intro n
    rfl

/-- Witness for `c8_invalid_ops_silently_ignored` at concrete inputs. -/
theorem c8_invalid_ops_silently_ignored_witness :
    startRecording ⟨false, none, false, true⟩ =
      StartRecordingResult.silentReturn ∧
    startSession (HttpOutcome.httpError 500) =
      StartSessionResult.silentIgnore :=
  ⟨c8_invalid_ops_silently_ignored.1 ⟨false, none, false, true⟩ rfl,
   c8_invalid_ops_silently_ignored.2 500⟩

/-- Claim C9: on an ok status response, the client issues the
start-session call exactly when `both_consented` is true; while it is
false no start call is issued and the next poll is scheduled.  (The
resulting `Started` state itself is produced by the backend, outside
src/.) -/
theorem c9_start_called_iff_both_consented :
    ∀ r : StatusResponse, r.ok = true →
      ((checkSessionStatusStep (PollOutcome.response r) =
          PollStep.startSessionCall ↔ r.both_consented = true) ∧
       (r.both_consented = false →
        checkSessionStatusStep (PollOutcome.response r) =
          PollStep.scheduleNext)) := by
  intro r hok
  constructor
  · constructor
    · intro h
      by_contra hb
      simp [checkSessionStatusStep, hb] at h
    · intro hb
      simp [checkSessionStatusStep, hok, hb]
  · intro hb
    simp [checkSessionStatusStep, hb]

/-- Witness for `c9_start_called_iff_both_consented`: an ok response with
both_consented=true triggers the start call. -/
theorem c9_start_called_iff_both_consented_witness :
    checkSessionStatusStep
        (PollOutcome.response ⟨true, SessionState.BothConsented, true⟩) =
      PollStep.startSessionCall :=
  ((c9_start_called_iff_both_consented
      ⟨true, SessionState.BothConsented, true⟩ rfl).1).2 rfl

/-- Claim C10, counterexample: the claim says the user is authenticated if
and only if a non-null access_token value exists in storage.  JS
truthiness makes the empty string falsy: a stored empty-string token is a
non-null value, yet `checkAuthStatus` leaves the user unauthenticated. -/
theorem c10_counterexample_empty_token_not_authenticated :
    checkAuthStatus (StorageRead.value "") = false :=
  rfl

/-- Claim C10, amended: at startup the user is treated as authenticated
iff a truthy - non-null and non-empty - access_token string is read from
local storage; no backend validation is performed (`checkAuthStatus` is a
pure function of the storage read alone); a storage-read error, a null
value, or an empty value leaves the user unauthenticated, and only an
authenticated user is routed to the main tabs. -/
theorem c10_auth_iff_truthy_token :
    (∀ r : StorageRead,
      checkAuthStatus r = true ↔
        ∃ s : String, r = StorageRead.value s ∧ s ≠ "") ∧
    checkAuthStatus StorageRead.thrown = false ∧
    appRoute (checkAuthStatus StorageRead.nullValue) = RootRoute.authStack ∧
    ∀ b : Bool, appRoute b = RootRoute.mainTabs ↔ b = true := by
  refine ⟨?_, rfl, rfl, ?_⟩
  · intro r
    cases r with
    | value s =>
      simp only [checkAuthStatus]
      constructor
      · intro h
        refine ⟨s, rfl, ?_⟩
        intro he
        subst he
        cases h
      · rintro ⟨s2, he, hne⟩
        injection he with he2
        subst he2
        simp [hne]
    | nullValue =>
      constructor
      · intro h
        cases h
      · rintro ⟨s2, he, hne⟩
        cases he
    | thrown =>
      constructor
      · intro h
        cases h
      · rintro ⟨s2, he, hne⟩
        cases he
  · intro b
    cases b <;> simp [appRoute]

end ProjectAlice
